import Mathlib

/-!
Verification of the numeric core of the Disk-Method solid-of-revolution
calculator (`disk_method.py`).

The program has three pieces with computable semantics:

* `volume_disk_method func a b` — one call to `scipy.integrate.quad` on the
  integrand `fun x => pi * (func x)^2`, returning the first component of the
  pair `(value, error_estimate)`;
* `get_plot_data func a b` — dense samples of `func` on `numpy.linspace a b 100`
  together with the surface-of-revolution coordinate grids;
* the Dash callback `update_output n_clicks func_str a b` — on a click it
  parses `func_str` with `sympy.sympify`, lambdifies it, computes the volume
  and the plot data, and builds three figures; with no click it returns the
  empty message and three empty figures.  The source contains no
  `try`/`except`: any exception raised by parsing or by evaluating the
  lambdified callable propagates out of the callback.

External library calls are modelled explicitly: `quad` as the ideal interval
integral, `sympy.sympify` as a recursive-descent parser of the arithmetic
fragment actually usable in the app, and an exception escaping the callback as
an `Except.error` value.
-/

namespace DiskMethod

open MeasureTheory intervalIntegral

/-- Model of `scipy.integrate.quad(g, a, b)`: adaptive quadrature, idealized
as the definite interval integral of `g` from `a` to `b`.  The second
component models the reported absolute-error estimate (idealized as `0`).
`quad` has no failure path: it always returns a pair of floats (convergence
problems only emit an `IntegrationWarning` and are not modelled as errors). -/
noncomputable def quad (g : ℝ → ℝ) (a b : ℝ) : ℝ × ℝ :=
  (∫ x in a..b, g x, 0)

/-- `volume_disk_method` from the source:
`volume, _ = quad(lambda x: np.pi * (func(x)**2), a, b); return volume`. -/
noncomputable def volume_disk_method (func : ℝ → ℝ) (a b : ℝ) : ℝ :=
  (quad (fun x => Real.pi * (func x) ^ 2) a b).1

/-- Model of `numpy.linspace a b n`: `n` points `a + i * (b - a) / (n - 1)`,
`i = 0, …, n-1`, so the first point is `a` and the last is `b`. -/
noncomputable def linspace (a b : ℝ) (n : ℕ) : List ℝ :=
  (List.range n).map fun i : ℕ => a + (b - a) * (i : ℝ) / ((n : ℝ) - 1)

/-- Model of `numpy.outer u v`: the matrix `(u i * v j)` as a list of rows. -/
noncomputable def outer (u v : List ℝ) : List (List ℝ) :=
  u.map fun ui => v.map fun vj => ui * vj

/-- `get_plot_data` from the source: dense curve samples
`x_vals = np.linspace(a, b, 100)`, `y_vals = func(x_vals)`, and the
surface-of-revolution grids built from `theta = np.linspace(0, 2*pi, 100)`,
`Y = np.outer(func(X), cos theta)`, `Z = np.outer(func(X), sin theta)`,
`x_surface = np.repeat(X[:, newaxis], len(theta), axis=1)`. -/
noncomputable def get_plot_data (func : ℝ → ℝ) (a b : ℝ) :
    List ℝ × List ℝ × List (List ℝ) × List (List ℝ) × List (List ℝ) :=
  let x_vals := linspace a b 100
  let y_vals := x_vals.map func
  let theta := linspace 0 (2 * Real.pi) 100
  let X := linspace a b 100
  let Y := outer (X.map func) (theta.map Real.cos)
  let Z := outer (X.map func) (theta.map Real.sin)
  let x_surface := X.map fun xi => List.replicate theta.length xi
  (x_vals, y_vals, x_surface, Y, Z)

/-- The sample set used for the 2-D plots: the `(x, f(x))` pairs formed from
the `x_vals` and `y_vals` components of `get_plot_data`. -/
noncomputable def sampleSet (func : ℝ → ℝ) (a b : ℝ) : List (ℝ × ℝ) :=
  (get_plot_data func a b).1.zip (get_plot_data func a b).2.1

/-! ### Expression parsing (`sympy.sympify` / `sympy.lambdify` model)

`sympy` is an external library; its behavior at the two call sites of
`update_output` is modelled explicitly.  `sympify` is modelled as a
recursive-descent parser of the arithmetic fragment (integer literals,
identifiers, unary minus, `+ - * /`, left-associative), raising
`SympifyError` — returned as `Except.error` — on malformed input such as the
empty string or a dangling operator, and accepting any well-formed expression
regardless of how many distinct free symbols it contains (as `sympy.sympify`
does).  `lambdify x expr` binds only the symbol `x`; any other free symbol of
`expr` is left as an unbound name in the generated code and raises a
`NameError` the first time the callable is applied. -/

/-- Symbolic expressions produced by the modelled `sympify`. -/
inductive SymExpr where
  | const (n : ℕ)
  | var (s : String)
  | neg (e : SymExpr)
  | add (e₁ e₂ : SymExpr)
  | sub (e₁ e₂ : SymExpr)
  | mul (e₁ e₂ : SymExpr)
  | div (e₁ e₂ : SymExpr)
  deriving DecidableEq, Repr

/-- Tokens of the modelled expression grammar. -/
inductive Tok where
  | num (n : ℕ)
  | ident (s : String)
  | plus
  | minus
  | star
  | slash
  deriving DecidableEq, Repr

/-- Numeric value of a list of decimal digit characters. -/
def digitsToNat (ds : List Char) : ℕ :=
  ds.foldl (fun n c => 10 * n + (c.toNat - '0'.toNat)) 0

/-- Tokenizer for the modelled grammar (fuel-indexed so that it is
structurally recursive); `none` models a lexing failure. -/
def tokenize : ℕ → List Char → Option (List Tok)
  | 0, _ => none
  | _ + 1, [] => some []
  | fuel + 1, c :: cs =>
    if c = ' ' then tokenize fuel cs
    else if c = '+' then (tokenize fuel cs).map fun ts => Tok.plus :: ts
    else if c = '-' then (tokenize fuel cs).map fun ts => Tok.minus :: ts
    else if c = '*' then (tokenize fuel cs).map fun ts => Tok.star :: ts
    else if c = '/' then (tokenize fuel cs).map fun ts => Tok.slash :: ts
    else if c.isDigit then
      let ds := (c :: cs).takeWhile Char.isDigit
      let rest := (c :: cs).dropWhile Char.isDigit
      (tokenize fuel rest).map fun ts => Tok.num (digitsToNat ds) :: ts
    else if c.isAlpha then
      let ls := (c :: cs).takeWhile Char.isAlpha
      let rest := (c :: cs).dropWhile Char.isAlpha
      (tokenize fuel rest).map fun ts => Tok.ident (String.mk ls) :: ts
    else none

/-- Parses one factor: an integer literal, an identifier, or a unary minus
applied to a factor.  Returns the parsed expression and the remaining
tokens; `none` models a parse failure. -/
def parseFactor : ℕ → List Tok → Option (SymExpr × List Tok)
  | 0, _ => none
  | _ + 1, Tok.num n :: rest => some (SymExpr.const n, rest)
  | _ + 1, Tok.ident s :: rest => some (SymExpr.var s, rest)
  | fuel + 1, Tok.minus :: rest =>
    (parseFactor fuel rest).map fun p => (SymExpr.neg p.1, p.2)
  | _ + 1, _ => none

/-- Folds further `*` / `/` factors onto an already parsed left operand. -/
def parseTermRest : ℕ → SymExpr → List Tok → Option (SymExpr × List Tok)
  | 0, _, _ => none
  | fuel + 1, acc, Tok.star :: rest =>
    match parseFactor (rest.length + 1) rest with
    | some (e, rest₂) => parseTermRest fuel (SymExpr.mul acc e) rest₂
    | none => none
  | fuel + 1, acc, Tok.slash :: rest =>
    match parseFactor (rest.length + 1) rest with
    | some (e, rest₂) => parseTermRest fuel (SymExpr.div acc e) rest₂
    | none => none
  | _ + 1, acc, toks => some (acc, toks)

/-- Parses one term: a factor followed by `*` / `/` factors. -/
def parseTerm (toks : List Tok) : Option (SymExpr × List Tok) :=
  match parseFactor (toks.length + 1) toks with
  | some (e, rest) => parseTermRest (rest.length + 1) e rest
  | none => none

/-- Folds further `+` / `-` terms onto an already parsed left operand. -/
def parseSumRest : ℕ → SymExpr → List Tok → Option (SymExpr × List Tok)
  | 0, _, _ => none
  | fuel + 1, acc, Tok.plus :: rest =>
    match parseTerm rest with
    | some (e, rest₂) => parseSumRest fuel (SymExpr.add acc e) rest₂
    | none => none
  | fuel + 1, acc, Tok.minus :: rest =>
    match parseTerm rest with
    | some (e, rest₂) => parseSumRest fuel (SymExpr.sub acc e) rest₂
    | none => none
  | _ + 1, acc, toks => some (acc, toks)

/-- Parses a full expression: a term followed by `+` / `-` terms. -/
def parseSum (toks : List Tok) : Option (SymExpr × List Tok) :=
  match parseTerm toks with
  | some (e, rest) => parseSumRest (rest.length + 1) e rest
  | none => none

/-- The error raised by the modelled `sympy.sympify` on malformed input. -/
inductive SympifyError where
  | sympifyError
  deriving DecidableEq, Repr

/-- Model of `sympy.sympify`: tokenize and parse the whole string; the empty
string, a lexing failure, a parse failure, or trailing tokens raise
`SympifyError`.  An expression with several distinct free symbols (such as
`"x + y"`) parses successfully, exactly as in `sympy`. -/
def sympify (s : String) : Except SympifyError SymExpr :=
  match tokenize (s.length + 1) s.toList with
  | none => Except.error SympifyError.sympifyError
  | some [] => Except.error SympifyError.sympifyError
  | some toks =>
    match parseSum toks with
    | some (e, []) => Except.ok e
    | _ => Except.error SympifyError.sympifyError

/-- The free symbols of an expression, in left-to-right order of appearance
(`sympy`'s `free_symbols`, as a list). -/
def freeVars : SymExpr → List String
  | SymExpr.const _ => []
  | SymExpr.var s => [s]
  | SymExpr.neg e => freeVars e
  | SymExpr.add e₁ e₂ => freeVars e₁ ++ freeVars e₂
  | SymExpr.sub e₁ e₂ => freeVars e₁ ++ freeVars e₂
  | SymExpr.mul e₁ e₂ => freeVars e₁ ++ freeVars e₂
  | SymExpr.div e₁ e₂ => freeVars e₁ ++ freeVars e₂

/-- Real-valued evaluation of the callable produced by
`sympy.lambdify(x, func, 'numpy')` at the point `t`.  Only the symbol `x` is
bound (to `t`); the `0` returned for any other symbol is a junk value on a
branch that `update_output` never reaches, because applying the real callable
to such an expression raises `NameError` instead (modelled in
`update_output`). -/
noncomputable def evalR : SymExpr → ℝ → ℝ
  | SymExpr.const n, _ => (n : ℝ)
  | SymExpr.var s, t => if s = "x" then t else 0
  | SymExpr.neg e, t => -(evalR e t)
  | SymExpr.add e₁ e₂, t => evalR e₁ t + evalR e₂ t
  | SymExpr.sub e₁ e₂, t => evalR e₁ t - evalR e₂ t
  | SymExpr.mul e₁ e₂, t => evalR e₁ t * evalR e₂ t
  | SymExpr.div e₁ e₂, t => evalR e₁ t / evalR e₂ t

/-! ### The Dash callback `update_output` -/

/-- A plotly trace: `go.Scatter` carries its `x` and `y` arrays, `go.Surface`
its `x`, `y`, `z` grids (styling attributes are presentation-only and not
modelled). -/
inductive Trace where
  | scatter (x y : List ℝ)
  | surface (x y z : List (List ℝ))

/-- A plotly figure: its data traces and its animation frames (each frame is
a list of traces). -/
structure Fig where
  data : List Trace
  frames : List (List Trace)

/-- `go.Figure()`: no traces, no frames. -/
def Fig.empty : Fig := ⟨[], []⟩

/-- The `volume-output` text: `""` before the first click, and the message
`f"The volume of the solid of revolution is: {volume:.4f}"` after a
calculation (decimal formatting of the float is abstracted: the constructor
carries the displayed volume). -/
inductive VolumeOutput where
  | empty
  | message (volume : ℝ)

/-- The `function-graph` figure: the curve trace `(x_vals, y_vals)` and the
x-axis trace `(x_vals, zeros_like x_vals)`. -/
noncomputable def function_fig (x_vals y_vals : List ℝ) : Fig :=
  ⟨[Trace.scatter x_vals y_vals,
    Trace.scatter x_vals (x_vals.map fun _ => 0)], []⟩

/-- One frame of the rotating-solid animation (`i` of `num_frames = 50`):
`current_theta = np.linspace(0, i/(num_frames-1)*2*pi, 100)` and the surface
built from `func(x_surface[:, 0]) = func(X)`. -/
noncomputable def solid_frame (func : ℝ → ℝ) (a b : ℝ) (x_surface : List (List ℝ))
    (i : ℕ) : List Trace :=
  let current_theta := linspace 0 ((i : ℝ) / (50 - 1) * (2 * Real.pi)) 100
  let fX := (linspace a b 100).map func
  let frame := [Trace.surface x_surface (outer fX (current_theta.map Real.cos))
    (outer fX (current_theta.map Real.sin))]
  frame

/-- The `solid-graph` figure: the final surface as data plus the 50 rotation
frames. -/
noncomputable def solid_fig (func : ℝ → ℝ) (a b : ℝ)
    (x_surface Y Z : List (List ℝ)) : Fig :=
  ⟨[Trace.surface x_surface Y Z],
   (List.range 50).map (solid_frame func a b x_surface)⟩

/-- One frame of the 2-D cross-section animation (`i` of 50):
`rotation_angle = i/(num_frames-1)*2*pi`, the curve scaled by
`cos rotation_angle`, its negation, and the filled region between them. -/
noncomputable def solid_2d_frame (func : ℝ → ℝ) (x_vals : List ℝ) (i : ℕ) :
    List Trace :=
  let rotation_angle := (i : ℝ) / (50 - 1) * (2 * Real.pi)
  let rp := x_vals.map fun t => func t * Real.cos rotation_angle
  let rn := x_vals.map fun t => -(func t) * Real.cos rotation_angle
  let frame := [Trace.scatter x_vals rp,
    Trace.scatter x_vals rn,
    Trace.scatter (x_vals ++ x_vals.reverse) (rp ++ rn.reverse)]
  frame

/-- The `solid-2d-graph` figure: the curve, the x-axis, the filled area under
the curve, and the 50 rotation frames. -/
noncomputable def solid_2d_fig (func : ℝ → ℝ) (x_vals y_vals : List ℝ) : Fig :=
  ⟨[Trace.scatter x_vals y_vals,
    Trace.scatter x_vals (y_vals.map fun _ => 0),
    Trace.scatter (x_vals ++ x_vals.reverse) (y_vals ++ y_vals.map fun _ => 0)],
   (List.range 50).map (solid_2d_frame func x_vals)⟩

/-- An exception escaping the callback uncaught (the source has no
`try`/`except`): either the `SympifyError` raised by `sympify` on a malformed
expression, or the `NameError` raised the first time the lambdified callable
is applied (inside `quad`) when the expression has a free symbol other than
`x`. -/
inductive CallbackErr where
  | sympifyError
  | nameError
  deriving DecidableEq, Repr

/-- The Dash callback `update_output(n_clicks, func_str, a, b)`.

`Except.ok` is the tuple the Python function returns; `Except.error` models
an exception propagating out of the callback as an unhandled fault (there is
no error handling anywhere in the source).  When `n_clicks > 0` the
expression is sympified (a parse failure escapes as `SympifyError`), the
lambdified callable is built, and — modelling the `NameError` raised at its
first application inside `quad` — the computation faults unless every free
symbol of the expression is `x`; otherwise the volume, the plot data and the
three figures are computed.  When `n_clicks = 0` the callback returns the
empty message and three empty `go.Figure()`s without touching its other
arguments. -/
noncomputable def update_output (n_clicks : ℕ) (func_str : String) (a b : ℝ) :
    Except CallbackErr (VolumeOutput × Fig × Fig × Fig) :=
  if n_clicks > 0 then
    match sympify func_str with
    | Except.error _ => Except.error CallbackErr.sympifyError
    | Except.ok func =>
      if (freeVars func).all fun s => s = "x" then
        let func_numeric : ℝ → ℝ := fun t => evalR func t
        let volume := volume_disk_method func_numeric a b
        let pd := get_plot_data func_numeric a b
        Except.ok (VolumeOutput.message volume,
          function_fig pd.1 pd.2.1,
          solid_fig func_numeric a b pd.2.2.1 pd.2.2.2.1 pd.2.2.2.2,
          solid_2d_fig func_numeric pd.1 pd.2.1)
      else Except.error CallbackErr.nameError
  else Except.ok (VolumeOutput.empty, Fig.empty, Fig.empty, Fig.empty)

/-! ### Helper lemmas -/

/-- The disk-method integrand built from `func = fun x => 1 / x` is not
interval integrable on any nontrivial interval containing `0`: it dominates
`(x - 0)⁻¹` near the singularity. -/
lemma not_intervalIntegrable_pi_one_div_sq (a b : ℝ) (hne : a ≠ b)
    (h0 : (0 : ℝ) ∈ Set.uIcc a b) :
    ¬ IntervalIntegrable (fun x : ℝ => Real.pi * (1 / x) ^ 2)
      MeasureTheory.volume a b := by
  have hBigO : (fun x : ℝ => (x - 0)⁻¹) =O[nhdsWithin (0 : ℝ) {(0 : ℝ)}ᶜ]
      fun x : ℝ => Real.pi * (1 / x) ^ 2 := by
    refine Asymptotics.isBigO_iff.mpr ⟨1, ?_⟩
    have h1 : ∀ᶠ x : ℝ in nhds 0, |x - 0| < 1 := eventually_abs_sub_lt 0 one_pos
    filter_upwards [h1.filter_mono nhdsWithin_le_nhds, eventually_mem_nhdsWithin]
      with x hx hxmem
    have hx0 : x ≠ 0 := Set.mem_compl_singleton_iff.mp hxmem
    have hax : 0 < |x| := abs_pos.mpr hx0
    rw [sub_zero] at hx
    have key : |x|⁻¹ ≤ Real.pi / |x| ^ 2 := by
      rw [le_div_iff₀ (by positivity)]
      have hxx : |x|⁻¹ * |x| ^ 2 = |x| := by
        field_simp
        ring
      rw [hxx]
      linarith [Real.pi_gt_three]
    calc ‖(x - 0)⁻¹‖ = |x|⁻¹ := by rw [sub_zero, Real.norm_eq_abs, abs_inv]
      _ ≤ Real.pi / |x| ^ 2 := key
      _ = Real.pi * (1 / |x|) ^ 2 := by
          rw [one_div, inv_pow, div_eq_mul_inv]
      _ = 1 * ‖Real.pi * (1 / x) ^ 2‖ := by
          rw [one_mul, Real.norm_eq_abs, abs_mul, abs_of_nonneg Real.pi_pos.le,
            abs_pow, abs_div, abs_one]
  exact not_intervalIntegrable_of_sub_inv_isBigO_punctured hBigO hne h0

/-! ### Claim theorems -/

/-- C1.  For callable `f` and bounds `a < b`, `volume_disk_method f a b` is
the definite integral of `pi * f(x)^2` over `[a, b]` — equivalently `pi`
times the integral of `f(x)^2` (the disk-method volume). -/
theorem volume_disk_method_eq_integral (f : ℝ → ℝ) (a b : ℝ) (_hlt : a < b) :
    volume_disk_method f a b = ∫ x in a..b, Real.pi * (f x) ^ 2 ∧
    volume_disk_method f a b = Real.pi * ∫ x in a..b, (f x) ^ 2 := by
  constructor
  · rfl
  · show (∫ x in a..b, Real.pi * (f x) ^ 2) = Real.pi * ∫ x in a..b, (f x) ^ 2
    exact intervalIntegral.integral_const_mul Real.pi fun x => (f x) ^ 2

/-- Witness for C1 at `f = id`, `a = 0`, `b = 1`. -/
theorem volume_disk_method_eq_integral_witness :
    (0 : ℝ) < 1 ∧
    (volume_disk_method (fun x => x) 0 1 = ∫ x in (0:ℝ)..1, Real.pi * x ^ 2 ∧
     volume_disk_method (fun x => x) 0 1 = Real.pi * ∫ x in (0:ℝ)..1, x ^ 2) :=
  ⟨by norm_num, volume_disk_method_eq_integral (fun x => x) 0 1 (by norm_num)⟩

/-- C2 counterexample.  With the bounds reversed (`a = 1 > b = 0`) and
`f = fun _ => 1`, `volume_disk_method` returns `-pi < 0`: the volume is not
non-negative for ALL real bounds. -/
theorem volume_disk_method_reversed_bounds_neg :
    volume_disk_method (fun _ => 1) 1 0 < 0 := by
  have h : volume_disk_method (fun _ => 1) 1 0 = -Real.pi := by
    simp [volume_disk_method, quad]
  rw [h]
  simpa using Real.pi_pos

/-- C2 amended.  For bounds in the expected order (`a ≤ b`) the returned
volume is non-negative, the integrand `pi * f(x)^2` being pointwise
non-negative. -/
theorem volume_disk_method_nonneg (f : ℝ → ℝ) (a b : ℝ) (hab : a ≤ b) :
    0 ≤ volume_disk_method f a b := by
  show 0 ≤ ∫ x in a..b, Real.pi * (f x) ^ 2
  refine intervalIntegral.integral_nonneg hab fun u _ => ?_
  positivity

/-- Witness for the amended C2 at `f = fun _ => 1`, `a = 0`, `b = 1`. -/
theorem volume_disk_method_nonneg_witness :
    (0 : ℝ) ≤ 1 ∧ 0 ≤ volume_disk_method (fun _ => 1) 0 1 :=
  ⟨by norm_num, volume_disk_method_nonneg (fun _ => 1) 0 1 (by norm_num)⟩

/-- C3.  When the bounds coincide, `volume_disk_method f a a` is exactly
`0`. -/
theorem volume_disk_method_same_bounds (f : ℝ → ℝ) (a : ℝ) :
    volume_disk_method f a a = 0 := by
  simp [volume_disk_method, quad]

/-- C4.  The volume is sign-independent of `f`: applying
`volume_disk_method` to the pointwise negation of `f` returns the same
volume, because the integrand squares `f`. -/
theorem volume_disk_method_sign_independent (f : ℝ → ℝ) (a b : ℝ) :
    volume_disk_method (fun x => -(f x)) a b = volume_disk_method f a b := by
  simp [volume_disk_method, quad, neg_sq]

/-- C7.  With reversed bounds (`a > b`) the code raises no error; the
returned volume has the same magnitude as the swapped-bounds call (the
interval integral changes sign under swapping). -/
theorem volume_disk_method_swapped_abs (f : ℝ → ℝ) (a b : ℝ) (_hgt : a > b) :
    |volume_disk_method f a b| = |volume_disk_method f b a| := by
  have hsymm : volume_disk_method f a b = -volume_disk_method f b a := by
    show (∫ x in a..b, Real.pi * (f x) ^ 2)
      = -∫ x in b..a, Real.pi * (f x) ^ 2
    exact intervalIntegral.integral_symm b a
  rw [hsymm, abs_neg]

/-- Witness for C7 at `f = fun _ => 1`, `a = 1`, `b = 0`. -/
theorem volume_disk_method_swapped_abs_witness :
    (1 : ℝ) > 0 ∧
    |volume_disk_method (fun _ => 1) 1 0| = |volume_disk_method (fun _ => 1) 0 1| :=
  ⟨by norm_num, volume_disk_method_swapped_abs (fun _ => 1) 1 0 (by norm_num)⟩

/-- C8 counterexample.  For `f = fun x => 1 / x` on `[-1, 1]` the integrand
has a non-integrable singularity at `0` (the quadrature cannot converge),
yet `volume_disk_method` does not fail: it silently returns a plain number
(the junk value `0` of the idealized integral).  The function has no error
path at all. -/
theorem volume_disk_method_singularity_silent :
    ¬ IntervalIntegrable (fun x : ℝ => Real.pi * (1 / x) ^ 2)
        MeasureTheory.volume (-1) 1 ∧
    volume_disk_method (fun x => 1 / x) (-1) 1 = 0 := by
  have hni := not_intervalIntegrable_pi_one_div_sq (-1) 1 (by norm_num)
    (Set.mem_uIcc.mpr (Or.inl ⟨by norm_num, by norm_num⟩))
  exact ⟨hni, by
    show (∫ x in (-1:ℝ)..1, Real.pi * (1 / x) ^ 2) = 0
    exact intervalIntegral.integral_undef hni⟩

/-- C8 amended.  `volume_disk_method` has no integration-error path: when
the integrand fails to be interval integrable on `[a, b]`, it silently
returns the quadrature's junk value (`0` in the idealized model) instead of
failing with an `IntegrationError`. -/
theorem volume_disk_method_not_integrable_eq_zero (f : ℝ → ℝ) (a b : ℝ)
    (h : ¬ IntervalIntegrable (fun x => Real.pi * (f x) ^ 2)
      MeasureTheory.volume a b) :
    volume_disk_method f a b = 0 := by
  show (∫ x in a..b, Real.pi * (f x) ^ 2) = 0
  exact intervalIntegral.integral_undef h

/-- Witness for the amended C8 at `f = fun x => 1 / x` on `[-2, 2]`. -/
theorem volume_disk_method_not_integrable_eq_zero_witness :
    ¬ IntervalIntegrable (fun x : ℝ => Real.pi * (1 / x) ^ 2)
        MeasureTheory.volume (-2) 2 ∧
    volume_disk_method (fun x => 1 / x) (-2) 2 = 0 := by
  have hni := not_intervalIntegrable_pi_one_div_sq (-2) 2 (by norm_num)
    (Set.mem_uIcc.mpr (Or.inl ⟨by norm_num, by norm_num⟩))
  exact ⟨hni, volume_disk_method_not_integrable_eq_zero (fun x => 1 / x) (-2) 2 hni⟩

/-- C9.  The plotting sample set consists of exactly 100 pairs
`(x_i, f x_i)` with `x_i = a + (b - a) * i / 99` for `i = 0, …, 99`: the
x-coordinates run from `a` to `b` in equal steps of `(b - a) / 99` in order
of index, and each y-coordinate is `f` of the corresponding x-coordinate. -/
theorem sampleSet_spec (f : ℝ → ℝ) (a b : ℝ) :
    (sampleSet f a b).length = 100 ∧
    sampleSet f a b = (List.range 100).map fun i : ℕ =>
      (a + (b - a) * (i : ℝ) / 99, f (a + (b - a) * (i : ℝ) / 99)) := by
  have heq : sampleSet f a b = (List.range 100).map fun i : ℕ =>
      (a + (b - a) * (i : ℝ) / 99, f (a + (b - a) * (i : ℝ) / 99)) := by
    show ((linspace a b 100).zip ((linspace a b 100).map f)) = _
    rw [linspace, List.map_map, List.zip_map']
    refine List.map_congr_left fun i _ => ?_
    norm_num [Function.comp]
  exact ⟨by rw [heq, List.length_map, List.length_range], heq⟩

/-- C5 counterexample.  With the empty expression string, the `SympifyError`
raised by parsing escapes `update_output` as an unhandled fault
(`Except.error`): no `ParseError` value is returned to the caller as part of
a normal response, because the source contains no error handling. -/
theorem update_output_empty_string_faults :
    update_output 1 "" 0 1 = Except.error CallbackErr.sympifyError := rfl

/-- C5 amended.  Parsing a malformed expression (`"x + "` or `""`) raises a
`SympifyError` that propagates uncaught out of `update_output`; the callback
never converts it into a normal user-visible response. -/
theorem update_output_malformed_propagates (a b : ℝ) :
    update_output 1 "x + " a b = Except.error CallbackErr.sympifyError ∧
    update_output 1 "" a b = Except.error CallbackErr.sympifyError :=
  ⟨rfl, rfl⟩

/-- C6 counterexample.  `sympify "x + y"` does not return a `ParseError`: it
parses successfully to the two-variable expression `x + y`, exactly as
`sympy.sympify` does. -/
theorem sympify_two_vars_ok :
    sympify "x + y" = Except.ok (SymExpr.add (SymExpr.var "x") (SymExpr.var "y")) :=
  rfl

/-- C6 amended.  An expression with a second free variable is parsed and
lambdified into a callable; the failure is a `NameError` raised only when
that callable is first applied (inside the integrator), which then escapes
`update_output` uncaught. -/
theorem update_output_two_vars_nameError (a b : ℝ) :
    update_output 1 "x + y" a b = Except.error CallbackErr.nameError := rfl

/-- C10.  Before the first click (`n_clicks = 0`) the callback returns the
empty message and three empty figures, whatever the expression string and
bounds are: the expression is never parsed and the integrator never runs, so
invalid inputs cause no error. -/
theorem update_output_no_click (func_str : String) (a b : ℝ) :
    update_output 0 func_str a b
      = Except.ok (VolumeOutput.empty, Fig.empty, Fig.empty, Fig.empty) := rfl

end DiskMethod
